import Mathlib

/-!
# Chat relay: `POST /api/chat` of `server/server.js` and `sendMessage` of
`client/src/components/AIChatbot.jsx`

JavaScript strings are sequences of UTF-16 code units, so they are embedded as
lists of natural numbers (each below 65536).  JSON bodies are embedded as a
small value type.  The backend (`ollama.chat`) is a parameter of the handler:
a function from the call it receives to either the reply text or the error it
throws.  The handler returns the list of backend calls it made together with
the response it sent, or no response when an exception leaves the handler.
-/

set_option autoImplicit false

namespace ChatRelay

/-! ## JavaScript strings -/

/-- A JavaScript string: its UTF-16 code units. -/
abbrev JsString := List Nat

/-- UTF-16 code units of one Unicode scalar value. -/
def utf16Char (c : Char) : JsString :=
  let n := c.toNat
  if n < 0x10000 then [n]
  else [0xD800 + (n - 0x10000) / 0x400, 0xDC00 + (n - 0x10000) % 0x400]

/-- The JavaScript string denoted by a source literal. -/
def utf16 (s : String) : JsString :=
  s.data.flatMap utf16Char

/-- ECMAScript `WhiteSpace` and `LineTerminator` code units, the ones removed by
`String.prototype.trim`. -/
def isJsWhiteSpace (c : Nat) : Bool :=
  c == 0x0009 || c == 0x000A || c == 0x000B || c == 0x000C || c == 0x000D ||
  c == 0x0020 || c == 0x00A0 || c == 0x1680 || (0x2000 ≤ c && c ≤ 0x200A) ||
  c == 0x2028 || c == 0x2029 || c == 0x202F || c == 0x205F || c == 0x3000 ||
  c == 0xFEFF

/-- `String.prototype.trim`: drop white space at both ends. -/
def jsTrim (s : JsString) : JsString :=
  ((s.dropWhile isJsWhiteSpace).reverse.dropWhile isJsWhiteSpace).reverse

/-- `String.prototype.includes(t)`: `t` occurs as a contiguous run of `s`. -/
def jsIncludes (s t : JsString) : Bool :=
  s.tails.any (fun u => t.isPrefixOf u)

/-- `slice(start)` of arrays and of strings, with the end left out: a negative
`start` counts from the end and is clamped at 0, a positive one is clamped at
the length. -/
def jsSlice {α : Type} (xs : List α) (start : Int) : List α :=
  let len : Int := xs.length
  let k : Int := if start < 0 then max (len + start) 0 else min start len
  xs.drop k.toNat

/-- Iteration of a string (as done by spread): one string per code point, a
high surrogate followed by a low surrogate forming one element. -/
def codePoints : JsString → List JsString
  | [] => []
  | [a] => [[a]]
  | a :: b :: rest =>
    if 0xD800 ≤ a ∧ a ≤ 0xDBFF ∧ 0xDC00 ≤ b ∧ b ≤ 0xDFFF then
      [a, b] :: codePoints rest
    else
      [a] :: codePoints (b :: rest)

/-! ## JSON values -/

/-- Values a parsed JSON body can hold, plus `undefined` for what a property
read gives when the property is missing.  Numbers are never inspected by the
handler; an integer stands for each. -/
inductive JSVal where
  | undefined
  | null
  | bool (b : Bool)
  | num (n : Int)
  | str (s : JsString)
  | arr (items : List JSVal)
  | obj (fields : List (JsString × JSVal))

/-- Property read `v[k]` for the property names used here (none of them is a
built-in property of arrays, strings, numbers or booleans).  `none` is the
TypeError of reading a property of `null` or `undefined`.  In an object given
with a repeated key the later entry counts, as in `JSON.parse`. -/
def getProp (v : JSVal) (k : JsString) : Option JSVal :=
  match v with
  | .undefined => none
  | .null => none
  | .obj fields =>
    match fields.reverse.find? (fun p => p.1 == k) with
    | some p => some p.2
    | none => some .undefined
  | _ => some .undefined

/-- Property read on a value known not to be `null` or `undefined`. -/
def getField (v : JSVal) (k : JsString) : JSVal :=
  (getProp v k).getD .undefined

/-! ## Server configuration (`server.js`, lines 10-29) -/

def MODEL_NAME : JsString := utf16 "llama3.2:3b"

def DEFAULT_SYSTEM_PROMPT : JsString := utf16
  "Kamu adalah asisten AI yang membantu dan ramah.\n\nATURAN UTAMA:\n1. SELALU gunakan Bahasa Indonesia yang baik dan benar\n2. Jawab dengan SINGKAT, JELAS, dan LANGSUNG ke inti\n3. Jika tidak tahu jawabannya, katakan \"Maaf, saya belum tahu tentang itu\"\n4. JANGAN pernah mengarang informasi\n5. Bersikap SOPAN dan PROFESIONAL\n6. Format jawaban dengan RAPI\n\nCONTOH JAWABAN YANG BAIK:\nUser: Halo\nAI: Hai! Ada yang bisa saya bantu?\n\nUser: Apa itu AI?\nAI: AI (Artificial Intelligence) adalah kecerdasan buatan yang dibuat mesin untuk meniru kecerdasan manusia.\n\nUser: Siapa presiden pertama Indonesia?\nAI: Presiden pertama Indonesia adalah Ir. Soekarno (1945-1967)."

/-! ## The backend and the handler's observable result -/

/-- An `Error` object as thrown by the backend client or by the engine: its
`message` text (a string, as for every `Error`) and its `code` property when it
has one (`none` when `error.code` reads `undefined`). -/
structure JsError where
  code : Option JsString
  message : JsString

/-- The argument of `ollama.chat`.  The remaining fields (`stream: false` and
the sampling options) are the same constants in every call. -/
structure ChatCall where
  model : JsString
  messages : List JSVal

/-- How `await ollama.chat(...)` ends: with `response.message.content`, or by
throwing. -/
abbrev BackendOutcome := Except JsError JsString

/-- The backend as the handler sees it. -/
abbrev Backend := ChatCall → BackendOutcome

/-- What `res.status(..).json(..)` sends; the status is 200 when unset. -/
structure Response where
  status : Nat
  body : JSVal

/-- One run of the handler: the backend calls made, in order, and the response
sent; `response = none` when an exception left the handler before any response
was sent. -/
structure HandlerResult where
  calls : List ChatCall
  response : Option Response

/-! ## `app.post("/api/chat", ...)` (`server.js`, lines 38-104) -/

/-- TypeError text of the engine (V8) for `history.slice` with `history` null. -/
def nullSliceError : JsError :=
  { code := none, message := utf16 "Cannot read properties of null (reading 'slice')" }

/-- TypeError text of the engine (V8) for `...history.slice(-4)` when
`history.slice` is not a function; the call sits in a spread, which the text
mentions. -/
def notFunctionSliceError : JsError :=
  { code := none,
    message := utf16 "history.slice is not a function or its return value is not iterable" }

/-- Lines 39-43: the destructuring of `req.body` with its two defaults, which
apply exactly when the property reads `undefined`.  `none` is the TypeError of
destructuring `null` or `undefined`. -/
def destructureBody (body : JSVal) : Option (JSVal × JSVal × JSVal) :=
  match getProp body (utf16 "message"), getProp body (utf16 "history"),
      getProp body (utf16 "systemPrompt") with
  | some message, some history, some systemPrompt =>
    some (message,
      (match history with
       | .undefined => .arr []
       | h => h),
      (match systemPrompt with
       | .undefined => .str DEFAULT_SYSTEM_PROMPT
       | s => s))
  | _, _, _ => none

/-- Line 51: `...history.slice(-4)`.  Arrays and strings have `slice`; a string
is then spread code point by code point.  Every other value throws a
TypeError. -/
def spreadSlice (history : JSVal) : Except JsError (List JSVal) :=
  match history with
  | .arr items => .ok (jsSlice items (-4))
  | .str s => .ok ((codePoints (jsSlice s (-4))).map JSVal.str)
  | .null => .error nullSliceError
  | .undefined =>
    .error { code := none,
             message := utf16 "Cannot read properties of undefined (reading 'slice')" }
  | _ => .error notFunctionSliceError

/-- Lines 49-53: the message list sent to the backend. -/
def assembleMessages (systemPrompt : JSVal) (window : List JSVal) (message : JsString) :
    List JSVal :=
  [JSVal.obj [(utf16 "role", .str (utf16 "system")), (utf16 "content", systemPrompt)]]
    ++ window
    ++ [JSVal.obj [(utf16 "role", .str (utf16 "user")), (utf16 "content", .str message)]]

/-- Lines 81-103: the `catch` block. -/
def catchBlock (error : JsError) : Response :=
  if error.code = some (utf16 "ECONNREFUSED") then
    { status := 503,
      body := .obj [(utf16 "error", .str (utf16 "Ollama tidak berjalan")),
                    (utf16 "solution",
                      .str (utf16 "Buka terminal baru dan jalankan: ollama serve"))] }
  else if error.message ≠ [] ∧ jsIncludes error.message (utf16 "model") = true then
    { status := 404,
      body := .obj [(utf16 "error",
                      .str (utf16 "Model '" ++ MODEL_NAME ++ utf16 "' tidak ditemukan")),
                    (utf16 "solution", .str (utf16 "Jalankan: ollama pull " ++ MODEL_NAME))] }
  else
    { status := 500,
      body := .obj [(utf16 "error", .str (utf16 "Terjadi kesalahan pada server")),
                    (utf16 "details", .str error.message)] }

/-- Lines 71-79: the response built from the backend's reply text. -/
def successResponse (content : JsString) : Response :=
  let reply := jsTrim content
  { status := 200,
    body := .obj [(utf16 "reply", .str reply),
                  (utf16 "model", .str MODEL_NAME),
                  (utf16 "tokens", .num reply.length)] }

/-- The chat handler.  Line 45 (`message.substring(..)`, before the `try`)
throws unless `message` is a string; everything from line 47 on is inside the
`try`. -/
def chatHandler (ollamaChat : Backend) (body : JSVal) : HandlerResult :=
  match destructureBody body with
  | none => { calls := [], response := none }
  | some (message, history, systemPrompt) =>
    match message with
    | .str msg =>
      match spreadSlice history with
      | .error e => { calls := [], response := some (catchBlock e) }
      | .ok window =>
        let call : ChatCall :=
          { model := MODEL_NAME, messages := assembleMessages systemPrompt window msg }
        match ollamaChat call with
        | .ok content => { calls := [call], response := some (successResponse content) }
        | .error e => { calls := [call], response := some (catchBlock e) }
    | _ => { calls := [], response := none }

/-! ## The client (`AIChatbot.jsx`) -/

/-- Roles of transcript entries (line 25). -/
inductive Role where
  | user
  | assistant
  | system
  deriving DecidableEq

def Role.name : Role → JsString
  | .user => utf16 "user"
  | .assistant => utf16 "assistant"
  | .system => utf16 "system"

/-- One transcript entry `{role, content}`. -/
structure ChatMessage where
  role : Role
  content : JsString

/-- The entry as it travels in a JSON body. -/
def ChatMessage.toJS (m : ChatMessage) : JSVal :=
  .obj [(utf16 "role", .str m.role.name), (utf16 "content", .str m.content)]

/-- The component state (lines 22-27). -/
structure ClientState where
  provider : JsString
  systemPrompt : JsString
  input : JsString
  history : List ChatMessage
  loading : Bool
  error : Option JsString

/-- Lines 34-48 of `sendMessage`: nothing happens for a blank input; otherwise
the state after the synchronous updates and the JSON body of the request. -/
def sendMessage (st : ClientState) : Option (ClientState × JSVal) :=
  if jsTrim st.input = [] then none
  else
    let userMsg : ChatMessage := { role := .user, content := jsTrim st.input }
    let newHistory := st.history ++ [userMsg]
    some ({ st with error := none, history := newHistory, input := [], loading := true },
      .obj [(utf16 "provider", .str st.provider),
            (utf16 "message", .str userMsg.content),
            (utf16 "history", .arr (newHistory.map ChatMessage.toJS)),
            (utf16 "systemPrompt", .str st.systemPrompt)])

/-- Line 98, the Apply Prompt button: a system entry is appended to the
transcript. -/
def applyPrompt (st : ClientState) : ClientState :=
  { st with history := st.history ++ [{ role := .system, content := st.systemPrompt }] }

/-! ## Predicates used in the statements -/

/-- Test backend of the round-trip property: it replies with the content of
the last message it was sent, followed by a fixed suffix. -/
def echoBackend (suffix : JsString) : Backend := fun call =>
  match call.messages.getLast? with
  | some m =>
    match getField m (utf16 "content") with
    | .str s => .ok (s ++ suffix)
    | _ => .ok suffix
  | none => .ok suffix

/-- The value is an object whose `role` is the given string. -/
def hasRole (m : JSVal) (r : JsString) : Bool :=
  match getField m (utf16 "role") with
  | .str s => s == r
  | _ => false

/-! ## General facts about the handler -/

theorem jsSlice_neg_four {α : Type} (xs : List α) :
    jsSlice xs (-4) = xs.drop (xs.length - 4) := by
  unfold jsSlice
  have hk : (max ((xs.length : Int) + -4) 0).toNat = xs.length - 4 := by omega
  simp [hk]

/-- When the body destructures with a string `message` and the spread of the
history window succeeds, the handler calls the backend once and answers from
the outcome of that call. -/
theorem chatHandler_reached (b : Backend) (body : JSVal) (m : JsString)
    (hist sp : JSVal) (window : List JSVal)
    (hd : destructureBody body = some (.str m, hist, sp))
    (hs : spreadSlice hist = .ok window) :
    chatHandler b body =
      { calls := [{ model := MODEL_NAME, messages := assembleMessages sp window m }],
        response := some
          (match b { model := MODEL_NAME, messages := assembleMessages sp window m } with
           | .ok content => successResponse content
           | .error e => catchBlock e) } := by
  unfold chatHandler
  simp only [hd, hs]
  cases b { model := MODEL_NAME, messages := assembleMessages sp window m } <;> rfl

/-- A run that called the backend came through the `try` block with a string
`message`, and its response is determined by the outcome of the call. -/
theorem chatHandler_of_call (b : Backend) (body : JSVal) (call : ChatCall)
    (h : (chatHandler b body).calls = [call]) :
    (∃ m hist sp window, destructureBody body = some (.str m, hist, sp) ∧
        spreadSlice hist = .ok window ∧
        call = { model := MODEL_NAME, messages := assembleMessages sp window m }) ∧
      (chatHandler b body).response = some
        (match b call with
         | .ok content => successResponse content
         | .error e => catchBlock e) := by
  unfold chatHandler at h ⊢
  split at h
  · simp at h
  · rename_i message history systemPrompt hd
    split at h
    · rename_i msg
      split at h
      · simp at h
      · rename_i window hs
        have hcall : call = ⟨MODEL_NAME, assembleMessages systemPrompt window msg⟩ := by
          dsimp only at h
          cases hb : b ⟨MODEL_NAME, assembleMessages systemPrompt window msg⟩ <;>
            rw [hb] at h <;> simp at h <;> exact h.symm
        refine ⟨⟨msg, history, systemPrompt, window, hd, hs, hcall⟩, ?_⟩
        subst hcall
        simp only [hs]
        cases b ⟨MODEL_NAME, assembleMessages systemPrompt window msg⟩ <;> rfl
    · simp at h

theorem catchBlock_status (e : JsError) :
    (catchBlock e).status = 503 ∨ (catchBlock e).status = 404 ∨ (catchBlock e).status = 500 := by
  unfold catchBlock
  split
  · exact Or.inl rfl
  · split
    · exact Or.inr (Or.inl rfl)
    · exact Or.inr (Or.inr rfl)

theorem getLast?_assembleMessages (sp : JSVal) (window : List JSVal) (m : JsString) :
    (assembleMessages sp window m).getLast? =
      some (JSVal.obj [(utf16 "role", .str (utf16 "user")), (utf16 "content", .str m)]) := by
  unfold assembleMessages
  rw [List.getLast?_concat]

theorem hasRole_system_head (sp : JSVal) :
    hasRole (JSVal.obj [(utf16 "role", .str (utf16 "system")), (utf16 "content", sp)])
      (utf16 "system") = true := by
  rfl

theorem hasRole_user_last (m : JsString) :
    hasRole (JSVal.obj [(utf16 "role", .str (utf16 "user")), (utf16 "content", .str m)])
      (utf16 "user") = true := by
  rfl

theorem hasRole_system_last (m : JsString) :
    hasRole (JSVal.obj [(utf16 "role", .str (utf16 "user")), (utf16 "content", .str m)])
      (utf16 "system") = false := by
  rfl

/-! ## C1: validation of `message` -/

/-- C1 (as stated) fails: for the white-space-only message of three blanks the
handler calls the backend once and answers 200, not 400. -/
theorem C1_counterexample :
    jsTrim (utf16 "   ") = [] ∧
    (chatHandler (fun _ => .ok (utf16 "ok"))
      (.obj [(utf16 "message", .str (utf16 "   "))])).calls.length = 1 ∧
    (chatHandler (fun _ => .ok (utf16 "ok"))
      (.obj [(utf16 "message", .str (utf16 "   "))])).response.map (fun r => r.status)
      = some 200 := by
  refine ⟨by decide, by rfl, by rfl⟩

/-- C1 (amended): a request whose `message` is an empty or white-space-only
string, and whose history can be windowed, is not rejected: the handler makes
exactly one backend call, the final message of that call is the user message
holding `message` as sent, and the response is the one that follows from the
backend outcome, whose status is never 400. -/
theorem C1_blank_message_forwarded (b : Backend) (body : JSVal) (m : JsString)
    (hist sp : JSVal) (window : List JSVal)
    (hd : destructureBody body = some (.str m, hist, sp))
    (hs : spreadSlice hist = .ok window)
    (_hblank : jsTrim m = []) :
    ∃ call resp, (chatHandler b body).calls = [call] ∧
      call.model = MODEL_NAME ∧
      call.messages.getLast? =
        some (JSVal.obj [(utf16 "role", .str (utf16 "user")), (utf16 "content", .str m)]) ∧
      (chatHandler b body).response = some resp ∧
      resp = (match b call with
              | .ok content => successResponse content
              | .error e => catchBlock e) ∧
      resp.status ≠ 400 := by
  rw [chatHandler_reached b body m hist sp window hd hs]
  refine ⟨_, _, rfl, rfl, getLast?_assembleMessages sp window m, rfl, rfl, ?_⟩
  cases b ⟨MODEL_NAME, assembleMessages sp window m⟩ with
  | ok content => simp [successResponse]
  | error e =>
    rcases catchBlock_status e with h | h | h <;> simp [h]

theorem C1_blank_message_forwarded_witness :
    ∃ call resp,
      (chatHandler (fun _ => .ok (utf16 "ok"))
        (.obj [(utf16 "message", .str (utf16 " "))])).calls = [call] ∧
      call.model = MODEL_NAME ∧
      call.messages.getLast? =
        some (JSVal.obj [(utf16 "role", .str (utf16 "user")),
          (utf16 "content", .str (utf16 " "))]) ∧
      (chatHandler (fun _ => .ok (utf16 "ok"))
        (.obj [(utf16 "message", .str (utf16 " "))])).response = some resp ∧
      resp = (match (fun _ => .ok (utf16 "ok") : Backend) call with
              | .ok content => successResponse content
              | .error e => catchBlock e) ∧
      resp.status ≠ 400 :=
  C1_blank_message_forwarded (fun _ => .ok (utf16 "ok"))
    (.obj [(utf16 "message", .str (utf16 " "))]) (utf16 " ") (.arr [])
    (.str DEFAULT_SYSTEM_PROMPT) [] rfl rfl (by decide)

/-! ## C2: the history window -/

/-- C2: with a string `message` and an array `history`, the backend receives
the system message, then the last `min 4 (length history)` entries of
`history` in their order, then the user message; the list has 6 entries when
the history has more than 4 and `length history + 2` otherwise. -/
theorem C2_prompt_window (b : Backend) (body : JSVal) (m : JsString)
    (h : List JSVal) (sp : JSVal)
    (hd : destructureBody body = some (.str m, .arr h, sp)) :
    ∃ call pre window, (chatHandler b body).calls = [call] ∧
      h = pre ++ window ∧ window.length = min 4 h.length ∧
      call.messages =
        [JSVal.obj [(utf16 "role", .str (utf16 "system")), (utf16 "content", sp)]]
          ++ window
          ++ [JSVal.obj [(utf16 "role", .str (utf16 "user")), (utf16 "content", .str m)]] ∧
      call.messages.length = (if 4 < h.length then 6 else h.length + 2) := by
  have hs : spreadSlice (.arr h) = .ok (h.drop (h.length - 4)) := by
    simp [spreadSlice, jsSlice_neg_four]
  rw [chatHandler_reached b body m (.arr h) sp _ hd hs]
  refine ⟨_, h.take (h.length - 4), h.drop (h.length - 4), rfl,
    (List.take_append_drop _ _).symm, ?_, rfl, ?_⟩
  · simp only [List.length_drop]
    omega
  · simp only [assembleMessages, List.length_append, List.length_drop, List.length_singleton]
    split <;> omega

theorem C2_prompt_window_witness :
    ∃ call pre window,
      (chatHandler (fun _ => .ok (utf16 "ok"))
        (.obj [(utf16 "message", .str (utf16 "hi")),
               (utf16 "history", .arr [.num 1, .num 2, .num 3, .num 4, .num 5])])).calls
        = [call] ∧
      [JSVal.num 1, .num 2, .num 3, .num 4, .num 5] = pre ++ window ∧
      window.length = min 4 [JSVal.num 1, .num 2, .num 3, .num 4, .num 5].length ∧
      call.messages =
        [JSVal.obj [(utf16 "role", .str (utf16 "system")),
            (utf16 "content", .str DEFAULT_SYSTEM_PROMPT)]]
          ++ window
          ++ [JSVal.obj [(utf16 "role", .str (utf16 "user")),
            (utf16 "content", .str (utf16 "hi"))]] ∧
      call.messages.length =
        (if 4 < [JSVal.num 1, .num 2, .num 3, .num 4, .num 5].length then 6
         else [JSVal.num 1, .num 2, .num 3, .num 4, .num 5].length + 2) :=
  C2_prompt_window (fun _ => .ok (utf16 "ok"))
    (.obj [(utf16 "message", .str (utf16 "hi")),
           (utf16 "history", .arr [.num 1, .num 2, .num 3, .num 4, .num 5])])
    (utf16 "hi") [.num 1, .num 2, .num 3, .num 4, .num 5] (.str DEFAULT_SYSTEM_PROMPT) rfl

/-! ## C3: the system prompt default -/

/-- C3 (as stated) fails: with `systemPrompt` the empty string, the system
message sent to the backend holds the empty string, not the default prompt. -/
theorem C3_counterexample :
    ∃ call,
      (chatHandler (fun _ => .ok (utf16 "ok"))
        (.obj [(utf16 "message", .str (utf16 "hi")),
               (utf16 "systemPrompt", .str [])])).calls = [call] ∧
      call.messages.head? =
        some (JSVal.obj [(utf16 "role", .str (utf16 "system")), (utf16 "content", .str [])]) ∧
      DEFAULT_SYSTEM_PROMPT ≠ [] :=
  ⟨_, rfl, rfl, by decide⟩

/-- C3 (amended): the system message holds the default prompt exactly when the
`systemPrompt` property reads `undefined` (it is absent); when it is present
with any other value, the empty string included, the system message holds that
value. -/
theorem C3_system_prompt (b : Backend) (body : JSVal) (m : JsString)
    (hist sp v : JSVal) (window : List JSVal)
    (hd : destructureBody body = some (.str m, hist, sp))
    (hs : spreadSlice hist = .ok window)
    (hv : getProp body (utf16 "systemPrompt") = some v) :
    ∃ call, (chatHandler b body).calls = [call] ∧
      (v = .undefined → call.messages.head? =
        some (JSVal.obj [(utf16 "role", .str (utf16 "system")),
          (utf16 "content", .str DEFAULT_SYSTEM_PROMPT)])) ∧
      (v ≠ .undefined → call.messages.head? =
        some (JSVal.obj [(utf16 "role", .str (utf16 "system")), (utf16 "content", v)])) := by
  rw [chatHandler_reached b body m hist sp window hd hs]
  refine ⟨_, rfl, ?_, ?_⟩
  · intro hundef
    subst hundef
    unfold destructureBody at hd
    rw [hv] at hd
    split at hd
    · rename_i hsome
      simp only [Option.some.injEq, Prod.mk.injEq] at hd
      obtain ⟨-, -, hsp⟩ := hd
      have hx := hsome
      simp only [Option.some.injEq] at hx
      subst hx
      subst hsp
      rfl
    · simp at hd
  · intro hdef
    unfold destructureBody at hd
    rw [hv] at hd
    split at hd
    · rename_i hsome
      simp only [Option.some.injEq, Prod.mk.injEq] at hd
      obtain ⟨-, -, hsp⟩ := hd
      have hx := hsome
      simp only [Option.some.injEq] at hx
      subst hx
      subst hsp
      cases v <;> first | rfl | exact absurd rfl hdef
    · simp at hd

theorem C3_system_prompt_witness :
    ∃ call,
      (chatHandler (fun _ => .ok (utf16 "ok"))
        (.obj [(utf16 "message", .str (utf16 "hi")),
               (utf16 "systemPrompt", .str (utf16 "Be brief."))])).calls = [call] ∧
      (JSVal.str (utf16 "Be brief.") = .undefined → call.messages.head? =
        some (JSVal.obj [(utf16 "role", .str (utf16 "system")),
          (utf16 "content", .str DEFAULT_SYSTEM_PROMPT)])) ∧
      (JSVal.str (utf16 "Be brief.") ≠ .undefined → call.messages.head? =
        some (JSVal.obj [(utf16 "role", .str (utf16 "system")),
          (utf16 "content", .str (utf16 "Be brief."))])) :=
  C3_system_prompt (fun _ => .ok (utf16 "ok"))
    (.obj [(utf16 "message", .str (utf16 "hi")),
           (utf16 "systemPrompt", .str (utf16 "Be brief."))])
    (utf16 "hi") (.arr []) (.str (utf16 "Be brief.")) (.str (utf16 "Be brief.")) []
    rfl rfl rfl

/-! ## C4: system messages in the prompt -/

/-- C4 (as stated) fails: a history holding one system entry (as the Apply
Prompt button of the client produces) yields a prompt with two system
messages. -/
theorem C4_counterexample :
    ∃ call,
      (chatHandler (fun _ => .ok (utf16 "ok"))
        (.obj [(utf16 "message", .str (utf16 "hi")),
               (utf16 "history",
                 .arr [.obj [(utf16 "role", .str (utf16 "system")),
                             (utf16 "content", .str (utf16 "x"))]])])).calls = [call] ∧
      call.messages.countP (fun msg => hasRole msg (utf16 "system")) = 2 :=
  ⟨_, rfl, by rfl⟩

/-- C4 (amended): in every prompt sent to the backend the first message has
role `system` and the final message has role `user`.  The prompt is the system
message, then the history window, then the user message, and the window is
passed on unfiltered (for an array history it is exactly its last four
entries), so the system messages of the prompt are the first message plus the
entries of role `system` in the window.  The prompt has exactly one system
message when no entry of the window has role `system`. -/
theorem C4_system_messages (b : Backend) (body : JSVal) (call : ChatCall)
    (hc : (chatHandler b body).calls = [call]) :
    ∃ m hist sp window, destructureBody body = some (.str m, hist, sp) ∧
      spreadSlice hist = .ok window ∧
      (∀ h, hist = .arr h → window = h.drop (h.length - 4)) ∧
      call.messages =
        [JSVal.obj [(utf16 "role", .str (utf16 "system")), (utf16 "content", sp)]]
          ++ window
          ++ [JSVal.obj [(utf16 "role", .str (utf16 "user")), (utf16 "content", .str m)]] ∧
      call.messages.head?.map (fun msg => hasRole msg (utf16 "system")) = some true ∧
      call.messages.getLast?.map (fun msg => hasRole msg (utf16 "user")) = some true ∧
      call.messages.getLast?.map (fun msg => hasRole msg (utf16 "system")) = some false ∧
      call.messages.countP (fun msg => hasRole msg (utf16 "system")) =
        1 + window.countP (fun msg => hasRole msg (utf16 "system")) ∧
      ((∀ x ∈ window, hasRole x (utf16 "system") = false) →
        call.messages.countP (fun msg => hasRole msg (utf16 "system")) = 1) := by
  obtain ⟨⟨m, hist, sp, window, hd, hs, hcall⟩, -⟩ := chatHandler_of_call b body call hc
  subst hcall
  have hcount : (assembleMessages sp window m).countP (fun msg => hasRole msg (utf16 "system"))
      = 1 + window.countP (fun msg => hasRole msg (utf16 "system")) := by
    unfold assembleMessages
    rw [List.countP_append, List.countP_append, List.countP_singleton, List.countP_singleton,
      hasRole_system_head, hasRole_system_last]
    simp
  have hwin : ∀ h, hist = .arr h → window = h.drop (h.length - 4) := by
    intro h hh
    subst hh
    have hs2 : spreadSlice (.arr h) = .ok (h.drop (h.length - 4)) := by
      simp [spreadSlice, jsSlice_neg_four]
    rw [hs2] at hs
    simp only [Except.ok.injEq] at hs
    exact hs.symm
  refine ⟨m, hist, sp, window, hd, hs, hwin, rfl, ?_, ?_, ?_, hcount, ?_⟩
  · show some (hasRole _ (utf16 "system")) = some true
    rw [hasRole_system_head]
  · show Option.map _ (assembleMessages sp window m).getLast? = some true
    rw [getLast?_assembleMessages]
    show some (hasRole _ (utf16 "user")) = some true
    rw [hasRole_user_last]
  · show Option.map _ (assembleMessages sp window m).getLast? = some false
    rw [getLast?_assembleMessages]
    show some (hasRole _ (utf16 "system")) = some false
    rw [hasRole_system_last]
  · intro hall
    show (assembleMessages sp window m).countP _ = 1
    rw [hcount]
    have hz : window.countP (fun msg => hasRole msg (utf16 "system")) = 0 := by
      rw [List.countP_eq_zero]
      intro x hx
      simp [hall x hx]
    omega

theorem C4_system_messages_witness :
    ∃ m hist sp window,
      destructureBody
        (.obj [(utf16 "message", .str (utf16 "hi")),
               (utf16 "history",
                 .arr [.obj [(utf16 "role", .str (utf16 "user")),
                             (utf16 "content", .str (utf16 "a"))],
                       .obj [(utf16 "role", .str (utf16 "system")),
                             (utf16 "content", .str (utf16 "x"))]])])
        = some (.str m, hist, sp) ∧
      spreadSlice hist = .ok window ∧
      (∀ h, hist = .arr h → window = h.drop (h.length - 4)) ∧
      [JSVal.obj [(utf16 "role", .str (utf16 "system")),
          (utf16 "content", .str DEFAULT_SYSTEM_PROMPT)],
        .obj [(utf16 "role", .str (utf16 "user")), (utf16 "content", .str (utf16 "a"))],
        .obj [(utf16 "role", .str (utf16 "system")), (utf16 "content", .str (utf16 "x"))],
        .obj [(utf16 "role", .str (utf16 "user")), (utf16 "content", .str (utf16 "hi"))]] =
        [JSVal.obj [(utf16 "role", .str (utf16 "system")), (utf16 "content", sp)]]
          ++ window
          ++ [JSVal.obj [(utf16 "role", .str (utf16 "user")), (utf16 "content", .str m)]] ∧
      [JSVal.obj [(utf16 "role", .str (utf16 "system")),
          (utf16 "content", .str DEFAULT_SYSTEM_PROMPT)],
        .obj [(utf16 "role", .str (utf16 "user")), (utf16 "content", .str (utf16 "a"))],
        .obj [(utf16 "role", .str (utf16 "system")), (utf16 "content", .str (utf16 "x"))],
        .obj [(utf16 "role", .str (utf16 "user")), (utf16 "content", .str (utf16 "hi"))]].head?.map
        (fun msg => hasRole msg (utf16 "system")) = some true ∧
      [JSVal.obj [(utf16 "role", .str (utf16 "system")),
          (utf16 "content", .str DEFAULT_SYSTEM_PROMPT)],
        .obj [(utf16 "role", .str (utf16 "user")), (utf16 "content", .str (utf16 "a"))],
        .obj [(utf16 "role", .str (utf16 "system")), (utf16 "content", .str (utf16 "x"))],
        .obj [(utf16 "role", .str (utf16 "user")),
          (utf16 "content", .str (utf16 "hi"))]].getLast?.map
        (fun msg => hasRole msg (utf16 "user")) = some true ∧
      [JSVal.obj [(utf16 "role", .str (utf16 "system")),
          (utf16 "content", .str DEFAULT_SYSTEM_PROMPT)],
        .obj [(utf16 "role", .str (utf16 "user")), (utf16 "content", .str (utf16 "a"))],
        .obj [(utf16 "role", .str (utf16 "system")), (utf16 "content", .str (utf16 "x"))],
        .obj [(utf16 "role", .str (utf16 "user")),
          (utf16 "content", .str (utf16 "hi"))]].getLast?.map
        (fun msg => hasRole msg (utf16 "system")) = some false ∧
      [JSVal.obj [(utf16 "role", .str (utf16 "system")),
          (utf16 "content", .str DEFAULT_SYSTEM_PROMPT)],
        .obj [(utf16 "role", .str (utf16 "user")), (utf16 "content", .str (utf16 "a"))],
        .obj [(utf16 "role", .str (utf16 "system")), (utf16 "content", .str (utf16 "x"))],
        .obj [(utf16 "role", .str (utf16 "user")), (utf16 "content", .str (utf16 "hi"))]].countP
        (fun msg => hasRole msg (utf16 "system")) =
        1 + window.countP (fun msg => hasRole msg (utf16 "system")) ∧
      ((∀ x ∈ window, hasRole x (utf16 "system") = false) →
        [JSVal.obj [(utf16 "role", .str (utf16 "system")),
            (utf16 "content", .str DEFAULT_SYSTEM_PROMPT)],
          .obj [(utf16 "role", .str (utf16 "user")), (utf16 "content", .str (utf16 "a"))],
          .obj [(utf16 "role", .str (utf16 "system")), (utf16 "content", .str (utf16 "x"))],
          .obj [(utf16 "role", .str (utf16 "user")),
            (utf16 "content", .str (utf16 "hi"))]].countP
          (fun msg => hasRole msg (utf16 "system")) = 1) :=
  C4_system_messages (fun _ => .ok (utf16 "ok"))
    (.obj [(utf16 "message", .str (utf16 "hi")),
           (utf16 "history",
             .arr [.obj [(utf16 "role", .str (utf16 "user")),
                         (utf16 "content", .str (utf16 "a"))],
                   .obj [(utf16 "role", .str (utf16 "system")),
                         (utf16 "content", .str (utf16 "x"))]])])
    ⟨MODEL_NAME,
      [JSVal.obj [(utf16 "role", .str (utf16 "system")),
          (utf16 "content", .str DEFAULT_SYSTEM_PROMPT)],
        .obj [(utf16 "role", .str (utf16 "user")), (utf16 "content", .str (utf16 "a"))],
        .obj [(utf16 "role", .str (utf16 "system")), (utf16 "content", .str (utf16 "x"))],
        .obj [(utf16 "role", .str (utf16 "user")), (utf16 "content", .str (utf16 "hi"))]]⟩
    rfl

/-! ## C5: the success response -/

theorem jsTrim_hi_append (suffix : JsString)
    (hsuf : ∀ hne : suffix ≠ [], isJsWhiteSpace (suffix.getLast hne) = false) :
    jsTrim (utf16 "hi" ++ suffix) = utf16 "hi" ++ suffix := by
  have hhi : utf16 "hi" = [104, 105] := by decide
  rw [hhi]
  have hdrop : ([104, 105] ++ suffix).dropWhile isJsWhiteSpace = [104, 105] ++ suffix := by
    have h104 : isJsWhiteSpace 104 = false := by decide
    simp [List.dropWhile, h104]
  unfold jsTrim
  rw [hdrop]
  show List.rdropWhile isJsWhiteSpace ([104, 105] ++ suffix) = [104, 105] ++ suffix
  rw [List.rdropWhile_eq_self_iff]
  intro hl
  by_cases hne : suffix = []
  · subst hne
    have h105 : isJsWhiteSpace 105 = false := by decide
    simp [h105]
  · rw [List.getLast_append_of_ne_nil hne]
    simp [hsuf hne]

/-- C5 (as stated) fails: with the echo backend and the suffix of one blank,
the reply to `{message: "hi", history: []}` is `"hi"`, not `"hi "`. -/
theorem C5_counterexample :
    (chatHandler (echoBackend (utf16 " "))
      (.obj [(utf16 "message", .str (utf16 "hi")),
             (utf16 "history", .arr [])])).response =
      some { status := 200,
             body := .obj [(utf16 "reply", .str (utf16 "hi")),
                           (utf16 "model", .str MODEL_NAME),
                           (utf16 "tokens", .num 2)] } ∧
    utf16 "hi" ≠ utf16 "hi" ++ utf16 " " :=
  ⟨rfl, by decide⟩

/-- C5 (amended): on a successful backend call the handler answers 200 with
`reply` the trimmed reply text, `model` the configured model name and `tokens`
the length of `reply`; with the echo backend, `{message: "hi", history: []}`
yields `reply = "hi" ++ suffix` and status 200 for every suffix that does not
end in white space (the empty suffix included). -/
theorem C5_success_response (b : Backend) (body : JSVal) (call : ChatCall)
    (content suffix : JsString)
    (hc : (chatHandler b body).calls = [call])
    (hok : b call = .ok content)
    (hsuf : ∀ hne : suffix ≠ [], isJsWhiteSpace (suffix.getLast hne) = false) :
    (chatHandler b body).response =
      some { status := 200,
             body := .obj [(utf16 "reply", .str (jsTrim content)),
                           (utf16 "model", .str MODEL_NAME),
                           (utf16 "tokens", .num (jsTrim content).length)] } ∧
    (chatHandler (echoBackend suffix)
      (.obj [(utf16 "message", .str (utf16 "hi")),
             (utf16 "history", .arr [])])).response =
      some { status := 200,
             body := .obj [(utf16 "reply", .str (utf16 "hi" ++ suffix)),
                           (utf16 "model", .str MODEL_NAME),
                           (utf16 "tokens", .num (utf16 "hi" ++ suffix).length)] } := by
  constructor
  · rw [(chatHandler_of_call b body call hc).2, hok]
    rfl
  · have hrun : (chatHandler (echoBackend suffix)
        (.obj [(utf16 "message", .str (utf16 "hi")),
               (utf16 "history", .arr [])])).response =
        some (successResponse (utf16 "hi" ++ suffix)) := rfl
    rw [hrun]
    unfold successResponse
    simp only [jsTrim_hi_append suffix hsuf]

theorem C5_success_response_witness :
    (chatHandler (echoBackend (utf16 "!"))
      (.obj [(utf16 "message", .str (utf16 "hi")),
             (utf16 "history", .arr [])])).response =
      some { status := 200,
             body := .obj [(utf16 "reply", .str (jsTrim (utf16 "hi!"))),
                           (utf16 "model", .str MODEL_NAME),
                           (utf16 "tokens", .num (jsTrim (utf16 "hi!")).length)] } ∧
    (chatHandler (echoBackend (utf16 "!"))
      (.obj [(utf16 "message", .str (utf16 "hi")),
             (utf16 "history", .arr [])])).response =
      some { status := 200,
             body := .obj [(utf16 "reply", .str (utf16 "hi" ++ utf16 "!")),
                           (utf16 "model", .str MODEL_NAME),
                           (utf16 "tokens", .num (utf16 "hi" ++ utf16 "!").length)] } :=
  C5_success_response (echoBackend (utf16 "!"))
    (.obj [(utf16 "message", .str (utf16 "hi")), (utf16 "history", .arr [])])
    ⟨MODEL_NAME, assembleMessages (.str DEFAULT_SYSTEM_PROMPT) [] (utf16 "hi")⟩
    (utf16 "hi!") (utf16 "!") rfl rfl (fun _ => rfl)

/-! ## C6, C7, C8: classification of backend failures -/

/-- C6: when the backend call fails with error code `ECONNREFUSED`, whatever
the message text, the handler answers 503 with an `error` field and a
`solution` field. -/
theorem C6_connection_refused (b : Backend) (body : JSVal) (call : ChatCall) (e : JsError)
    (hc : (chatHandler b body).calls = [call])
    (hfail : b call = .error e)
    (hcode : e.code = some (utf16 "ECONNREFUSED")) :
    (chatHandler b body).response =
      some { status := 503,
             body := .obj [(utf16 "error", .str (utf16 "Ollama tidak berjalan")),
                           (utf16 "solution",
                             .str (utf16 "Buka terminal baru dan jalankan: ollama serve"))] } := by
  rw [(chatHandler_of_call b body call hc).2, hfail]
  simp only [catchBlock, hcode, if_true]

theorem C6_connection_refused_witness :
    (chatHandler (fun _ => .error ⟨some (utf16 "ECONNREFUSED"), utf16 "model gone"⟩)
      (.obj [(utf16 "message", .str (utf16 "hi"))])).response =
      some { status := 503,
             body := .obj [(utf16 "error", .str (utf16 "Ollama tidak berjalan")),
                           (utf16 "solution",
                             .str (utf16 "Buka terminal baru dan jalankan: ollama serve"))] } :=
  C6_connection_refused (fun _ => .error ⟨some (utf16 "ECONNREFUSED"), utf16 "model gone"⟩)
    (.obj [(utf16 "message", .str (utf16 "hi"))])
    ⟨MODEL_NAME, assembleMessages (.str DEFAULT_SYSTEM_PROMPT) [] (utf16 "hi")⟩
    ⟨some (utf16 "ECONNREFUSED"), utf16 "model gone"⟩ rfl rfl rfl

/-- C7: when the backend call fails with an error that is not a connection
refusal and whose message reports the model by the word `model` (as the
backend's "model ... not found" report does), the handler answers 404 and both
the `error` and the `solution` field contain the configured model name. -/
theorem C7_model_not_found (b : Backend) (body : JSVal) (call : ChatCall) (e : JsError)
    (hc : (chatHandler b body).calls = [call])
    (hfail : b call = .error e)
    (hcode : e.code ≠ some (utf16 "ECONNREFUSED"))
    (hmsg : jsIncludes e.message (utf16 "model") = true) :
    ∃ err sol,
      (chatHandler b body).response =
        some { status := 404,
               body := .obj [(utf16 "error", .str err), (utf16 "solution", .str sol)] } ∧
      jsIncludes err MODEL_NAME = true ∧ jsIncludes sol MODEL_NAME = true := by
  refine ⟨utf16 "Model '" ++ MODEL_NAME ++ utf16 "' tidak ditemukan",
    utf16 "Jalankan: ollama pull " ++ MODEL_NAME, ?_, by decide, by decide⟩
  rw [(chatHandler_of_call b body call hc).2, hfail]
  have hne : e.message ≠ [] := by
    intro hnil
    rw [hnil] at hmsg
    exact absurd hmsg (by decide)
  simp only [catchBlock, hcode, if_false, hne, hmsg, ne_eq, not_false_eq_true, and_self, if_true]

theorem C7_model_not_found_witness :
    ∃ err sol,
      (chatHandler
        (fun _ => .error ⟨none, utf16 "model 'llama3.2:3b' not found, try pulling it first"⟩)
        (.obj [(utf16 "message", .str (utf16 "hi"))])).response =
        some { status := 404,
               body := .obj [(utf16 "error", .str err), (utf16 "solution", .str sol)] } ∧
      jsIncludes err MODEL_NAME = true ∧ jsIncludes sol MODEL_NAME = true :=
  C7_model_not_found
    (fun _ => .error ⟨none, utf16 "model 'llama3.2:3b' not found, try pulling it first"⟩)
    (.obj [(utf16 "message", .str (utf16 "hi"))])
    ⟨MODEL_NAME, assembleMessages (.str DEFAULT_SYSTEM_PROMPT) [] (utf16 "hi")⟩
    ⟨none, utf16 "model 'llama3.2:3b' not found, try pulling it first"⟩
    rfl rfl (by decide) (by decide)

/-- C8 (as stated) fails: a backend failure that reports insufficient memory,
neither a connection refusal nor a report of a missing model, is answered with
404 and the text that the model was not found, because its message contains
the word `model`. -/
theorem C8_counterexample :
    (⟨none, utf16 "model requires more system memory than is available"⟩ : JsError).code
      ≠ some (utf16 "ECONNREFUSED") ∧
    jsIncludes (utf16 "model requires more system memory than is available")
      (utf16 "not found") = false ∧
    (chatHandler
      (fun _ => .error ⟨none, utf16 "model requires more system memory than is available"⟩)
      (.obj [(utf16 "message", .str (utf16 "hi"))])).response =
      some { status := 404,
             body := .obj [(utf16 "error", .str (utf16 "Model 'llama3.2:3b' tidak ditemukan")),
                           (utf16 "solution",
                             .str (utf16 "Jalankan: ollama pull llama3.2:3b"))] } :=
  ⟨by decide, by decide, rfl⟩

/-- C8 (amended): when the backend call fails with an error whose code is not
`ECONNREFUSED` and whose message does not contain the text `model`, the handler
answers 500 with an `error` field and a `details` field equal to the raw
failure message. -/
theorem C8_internal_error (b : Backend) (body : JSVal) (call : ChatCall) (e : JsError)
    (hc : (chatHandler b body).calls = [call])
    (hfail : b call = .error e)
    (hcode : e.code ≠ some (utf16 "ECONNREFUSED"))
    (hmsg : jsIncludes e.message (utf16 "model") = false) :
    (chatHandler b body).response =
      some { status := 500,
             body := .obj [(utf16 "error", .str (utf16 "Terjadi kesalahan pada server")),
                           (utf16 "details", .str e.message)] } := by
  rw [(chatHandler_of_call b body call hc).2, hfail]
  simp [catchBlock, hcode, hmsg]

theorem C8_internal_error_witness :
    (chatHandler (fun _ => .error ⟨none, utf16 "fetch failed"⟩)
      (.obj [(utf16 "message", .str (utf16 "hi"))])).response =
      some { status := 500,
             body := .obj [(utf16 "error", .str (utf16 "Terjadi kesalahan pada server")),
                           (utf16 "details", .str (utf16 "fetch failed"))] } :=
  C8_internal_error (fun _ => .error ⟨none, utf16 "fetch failed"⟩)
    (.obj [(utf16 "message", .str (utf16 "hi"))])
    ⟨MODEL_NAME, assembleMessages (.str DEFAULT_SYSTEM_PROMPT) [] (utf16 "hi")⟩
    ⟨none, utf16 "fetch failed"⟩ rfl rfl (by decide) (by decide)

/-! ## C9: failures at the relay boundary -/

/-- Inside the `try` block every failure is answered: a request whose
`message` is a string gets a response, either 200 with a `reply` text or
503, 404 or 500 with an `error` text. -/
theorem chatHandler_responds_of_string_message (b : Backend) (body : JSVal) (m : JsString)
    (hist sp : JSVal) (hd : destructureBody body = some (.str m, hist, sp)) :
    ∃ resp, (chatHandler b body).response = some resp ∧
      ((resp.status = 200 ∧ ∃ reply, getField resp.body (utf16 "reply") = .str reply) ∨
       ((resp.status = 503 ∨ resp.status = 404 ∨ resp.status = 500) ∧
         ∃ txt, getField resp.body (utf16 "error") = .str txt)) := by
  have hcatch : ∀ e : JsError,
      ((catchBlock e).status = 503 ∨ (catchBlock e).status = 404 ∨ (catchBlock e).status = 500) ∧
        ∃ txt, getField (catchBlock e).body (utf16 "error") = .str txt := by
    intro e
    refine ⟨catchBlock_status e, ?_⟩
    unfold catchBlock
    split
    · exact ⟨_, rfl⟩
    · split
      · exact ⟨_, rfl⟩
      · exact ⟨_, rfl⟩
  cases hs : spreadSlice hist with
  | error e =>
    refine ⟨catchBlock e, ?_, Or.inr (hcatch e)⟩
    unfold chatHandler
    simp only [hd, hs]
  | ok window =>
    rw [chatHandler_reached b body m hist sp window hd hs]
    cases b ⟨MODEL_NAME, assembleMessages sp window m⟩ with
    | ok content => exact ⟨_, rfl, Or.inl ⟨rfl, _, rfl⟩⟩
    | error e => exact ⟨_, rfl, Or.inr (hcatch e)⟩

/-- C9 fails on the code: for the body `{}` (no `message`) the read
`message.substring` of line 45, placed before the `try`, throws; the handler
sends no response and the exception leaves it, whatever the backend. -/
theorem C9_missing_message_escapes (b : Backend) :
    (chatHandler b (.obj [])).response = none ∧ (chatHandler b (.obj [])).calls = [] :=
  ⟨rfl, rfl⟩

/-! ## C10: the client's request composed with the server's prompt assembly -/

theorem jsSlice_neg_four_concat {α : Type} (xs : List α) (u : α) :
    jsSlice (xs ++ [u]) (-4) = xs.drop (xs.length - 3) ++ [u] := by
  rw [jsSlice_neg_four, List.length_append, List.length_singleton]
  have hk : xs.length + 1 - 4 = xs.length - 3 := by omega
  rw [hk, List.drop_append_of_le_length (by omega)]

/-- C10: for a non-blank input the client sends `message` equal to the trimmed
input and `history` equal to the whole prior transcript followed by the new
user message; the prompt the server then sends to the backend is the system
message, the last `min 3 n` entries of the prior transcript, and two
consecutive user messages that both hold the trimmed input. -/
theorem C10_client_request_prompt (st : ClientState) (b : Backend)
    (hne : jsTrim st.input ≠ []) :
    ∃ st1 body call, sendMessage st = some (st1, body) ∧
      getField body (utf16 "message") = .str (jsTrim st.input) ∧
      getField body (utf16 "history") =
        .arr ((st.history ++ [(⟨.user, jsTrim st.input⟩ : ChatMessage)]).map
          ChatMessage.toJS) ∧
      (chatHandler b body).calls = [call] ∧
      call.messages =
        [JSVal.obj [(utf16 "role", .str (utf16 "system")),
            (utf16 "content", .str st.systemPrompt)]]
          ++ (st.history.drop (st.history.length - 3)).map ChatMessage.toJS
          ++ [JSVal.obj [(utf16 "role", .str (utf16 "user")),
                (utf16 "content", .str (jsTrim st.input))],
              JSVal.obj [(utf16 "role", .str (utf16 "user")),
                (utf16 "content", .str (jsTrim st.input))]] ∧
      ((st.history.drop (st.history.length - 3)).map ChatMessage.toJS).length
        = min 3 st.history.length := by
  have hsend : sendMessage st = some
      ({ st with error := none,
                 history := st.history ++ [(⟨.user, jsTrim st.input⟩ : ChatMessage)],
                 input := [], loading := true },
        .obj [(utf16 "provider", .str st.provider),
              (utf16 "message", .str (jsTrim st.input)),
              (utf16 "history",
                .arr ((st.history ++ [(⟨.user, jsTrim st.input⟩ : ChatMessage)]).map
                  ChatMessage.toJS)),
              (utf16 "systemPrompt", .str st.systemPrompt)]) := by
    unfold sendMessage
    rw [if_neg hne]
  have hs : spreadSlice
      (.arr ((st.history ++ [(⟨.user, jsTrim st.input⟩ : ChatMessage)]).map
        ChatMessage.toJS)) =
      .ok ((st.history.drop (st.history.length - 3)).map ChatMessage.toJS ++
        [JSVal.obj [(utf16 "role", .str (utf16 "user")),
          (utf16 "content", .str (jsTrim st.input))]]) := by
    show Except.ok (jsSlice (List.map ChatMessage.toJS (st.history ++ [_])) (-4)) = _
    rw [List.map_append, List.map_singleton, jsSlice_neg_four_concat, List.length_map,
      List.map_drop]
    rfl
  refine ⟨_, _, ⟨MODEL_NAME, assembleMessages (.str st.systemPrompt)
    ((st.history.drop (st.history.length - 3)).map ChatMessage.toJS ++
      [JSVal.obj [(utf16 "role", .str (utf16 "user")),
        (utf16 "content", .str (jsTrim st.input))]]) (jsTrim st.input)⟩,
    hsend, rfl, rfl, ?_, ?_, ?_⟩
  · have hd : destructureBody
        (.obj [(utf16 "provider", .str st.provider),
               (utf16 "message", .str (jsTrim st.input)),
               (utf16 "history",
                 .arr ((st.history ++ [(⟨.user, jsTrim st.input⟩ : ChatMessage)]).map
                   ChatMessage.toJS)),
               (utf16 "systemPrompt", .str st.systemPrompt)]) =
        some (.str (jsTrim st.input),
          .arr ((st.history ++ [(⟨.user, jsTrim st.input⟩ : ChatMessage)]).map
            ChatMessage.toJS),
          .str st.systemPrompt) := rfl
    rw [chatHandler_reached b _ _ _ _ _ hd hs]
  · simp [assembleMessages]
  · rw [List.length_map, List.length_drop]
    omega

theorem C10_client_request_prompt_witness :
    ∃ st1 body call,
      sendMessage ⟨utf16 "ollama", utf16 "Be brief.", utf16 " hi ", [], false, none⟩
        = some (st1, body) ∧
      getField body (utf16 "message") = .str (jsTrim (utf16 " hi ")) ∧
      getField body (utf16 "history") =
        .arr (([] ++ [(⟨.user, jsTrim (utf16 " hi ")⟩ : ChatMessage)]).map
          ChatMessage.toJS) ∧
      (chatHandler (fun _ => .ok (utf16 "ok")) body).calls = [call] ∧
      call.messages =
        [JSVal.obj [(utf16 "role", .str (utf16 "system")),
            (utf16 "content", .str (utf16 "Be brief."))]]
          ++ (([] : List ChatMessage).drop (([] : List ChatMessage).length - 3)).map
              ChatMessage.toJS
          ++ [JSVal.obj [(utf16 "role", .str (utf16 "user")),
                (utf16 "content", .str (jsTrim (utf16 " hi ")))],
              JSVal.obj [(utf16 "role", .str (utf16 "user")),
                (utf16 "content", .str (jsTrim (utf16 " hi ")))]] ∧
      ((([] : List ChatMessage).drop (([] : List ChatMessage).length - 3)).map
        ChatMessage.toJS).length = min 3 ([] : List ChatMessage).length :=
  C10_client_request_prompt
    ⟨utf16 "ollama", utf16 "Be brief.", utf16 " hi ", [], false, none⟩
    (fun _ => .ok (utf16 "ok")) (by decide)

end ChatRelay
